import Mathlib

/-!
Shallow embedding of `src/mobile_notifications/android/baseapi.py` (class
`BaseAPI`): the payload builder `parse_payload`, the recipient chunker
`registration_id_chunks`, the response parser `parse_response`, and the
status-code classification of `send_request`.

Python values flowing through the module (parameters, JSON) are modelled by
the inductive `PyVal`; Python truthiness (`if x:`) by `truthy`; `isinstance`
checks by `isInstInt` / `isInstDict` (`bool` is a subclass of `int` in
Python, hence `isInstInt` accepts booleans).  Python dictionaries are
modelled as insertion-ordered association lists with `dictSet`
(insert-or-overwrite, the semantics of `d[k] = v`) and `dictGet?`
(key lookup).  Raising an exception is modelled by `Except`.
-/

namespace MobileNotifications

/-- Model of a dynamically-typed Python value as it appears in this module:
`None`, booleans, integers, strings, lists and string-keyed dictionaries. -/
inductive PyVal where
  | none
  | bool (b : Bool)
  | int (n : Int)
  | str (s : String)
  | list (xs : List PyVal)
  | dict (entries : List (String × PyVal))

/-- Python truthiness: `None`, `False`, `0`, `""`, `[]` and `{}` are falsy,
everything else is truthy. -/
def truthy : PyVal → Bool
  | .none => false
  | .bool b => b
  | .int n => decide (n ≠ 0)
  | .str s => decide (s ≠ "")
  | .list [] => false
  | .list (_ :: _) => true
  | .dict [] => false
  | .dict (_ :: _) => true

/-- Python `isinstance(v, int)`: true for integers and booleans
(`bool` is a subclass of `int`). -/
def isInstInt : PyVal → Bool
  | .int _ => true
  | .bool _ => true
  | _ => false

/-- Python `isinstance(v, dict)`. -/
def isInstDict : PyVal → Bool
  | .dict _ => true
  | _ => false

/-- Python `d[k] = v` on a dict modelled as an insertion-ordered association
list (keys are unique by construction): overwrite the value in place if the
key is present, else append. -/
def dictSet : List (String × PyVal) → String → PyVal → List (String × PyVal)
  | [], k, v => [(k, v)]
  | (k1, v1) :: rest, k, v =>
    if k1 = k then (k, v) :: rest else (k1, v1) :: dictSet rest k v

/-- Key lookup in a dict modelled as an association list. -/
def dictGet? : List (String × PyVal) → String → Option PyVal
  | [], _ => Option.none
  | (k1, v1) :: rest, k => if k1 = k then some v1 else dictGet? rest k

/-- Python `parsed.get(k, default)` on a JSON object: the value under `k`,
or `default` when the key is missing (non-dicts never hit this in the
source; they are mapped to the default). -/
def pyGet (v : PyVal) (k : String) (dflt : PyVal) : PyVal :=
  match v with
  | .dict es => (dictGet? es k).getD dflt
  | _ => dflt

/-- FCM only allows up to 1000 registration ids per bulk message
(`BaseAPI.FCM_MAX_RECIPIENTS`). -/
def FCM_MAX_RECIPIENTS : Nat := 1000

/-- `BaseAPI.FCM_LOW_PRIORITY`. -/
def FCM_LOW_PRIORITY : String := "normal"

/-- `BaseAPI.FCM_HIGH_PRIORITY`. -/
def FCM_HIGH_PRIORITY : String := "high"

/-- `BaseAPI.registration_id_chunks`: successive slices
`registration_ids[i:i+1000]` for `i = 0, 1000, 2000, ...` below
`len(registration_ids)`.  The Python generator yields one slice per loop
iteration; the model collects the yielded slices in order.  An empty input
makes `range(0, 0, 1000)` empty, so no chunk is yielded. -/
def registration_id_chunks : List String → List (List String)
  | [] => []
  | x :: rest =>
    (x :: rest).take FCM_MAX_RECIPIENTS ::
      registration_id_chunks ((x :: rest).drop FCM_MAX_RECIPIENTS)
termination_by l => l.length
decreasing_by
  simp only [List.length_drop, List.length_cons, FCM_MAX_RECIPIENTS]
  omega

/-- The errors raised by the module (`errors.py` defines them; only their
identity and carried message matter here). -/
inductive FCMError where
  | invalidData (msg : String)
  | authentication (msg : String)
  | internalPackage (msg : String)
  | server (msg : String)

/-- The keyword parameters of `BaseAPI.parse_payload` with their Python
defaults.  `registration_ids` is a list of ids (Python `None` and `[]` are
both falsy, so the empty list models both).  String-typed parameters model
`str`-or-`None` arguments: the empty string and `None` are both falsy and
are treated identically by the source, which only ever tests them for
truthiness or embeds them as given.  `time_to_live` and `data_message` stay
fully dynamic (`PyVal`) because the source type-checks them at run time;
`message_title` and `message_icon` stay dynamic because they are embedded
in the notification object even when `None`.  `extra_kwargs` models
`**extra_kwargs` as key-value pairs merged last. -/
structure PayloadParams where
  registration_ids : List String := []
  topic_name : String := ""
  message_body : String := ""
  message_title : PyVal := PyVal.none
  message_icon : PyVal := PyVal.none
  sound : String := ""
  condition : String := ""
  collapse_key : String := ""
  delay_while_idle : Bool := false
  time_to_live : PyVal := PyVal.none
  restricted_package_name : String := ""
  low_priority : Bool := false
  dry_run : Bool := false
  data_message : PyVal := PyVal.none
  click_action : String := ""
  badge : PyVal := PyVal.none
  color : String := ""
  tag : String := ""
  body_loc_key : String := ""
  body_loc_args : PyVal := PyVal.none
  title_loc_key : String := ""
  title_loc_args : PyVal := PyVal.none
  extra_kwargs : List (String × PyVal) := []

/-- `BaseAPI.parse_payload`, translated statement by statement from the
source.  The result is the `fcm_payload` dictionary right before the final
`json_dumps` serialization (the claims are about the payload fields), or
the raised `InvalidDataError`.  Each `if` in the source is a truthiness
test and is modelled as such (empty string = falsy `str`-or-`None`). -/
def parse_payload (p : PayloadParams) :
    Except FCMError (List (String × PyVal)) := do
  let fcm_payload : List (String × PyVal) := []
  let fcm_payload :=
    if p.registration_ids = [] then fcm_payload
    else if p.registration_ids.length > 1 then
      dictSet fcm_payload "registration_ids"
        (PyVal.list (p.registration_ids.map PyVal.str))
    else
      dictSet fcm_payload "to" (PyVal.str (p.registration_ids.headD ""))
  let fcm_payload :=
    if p.condition ≠ "" then
      dictSet fcm_payload "condition" (PyVal.str p.condition)
    else if p.topic_name ≠ "" then
      dictSet fcm_payload "to" (PyVal.str ("/topics/" ++ p.topic_name))
    else fcm_payload
  let fcm_payload :=
    if p.low_priority then
      dictSet fcm_payload "priority" (PyVal.str FCM_LOW_PRIORITY)
    else
      dictSet fcm_payload "priority" (PyVal.str FCM_HIGH_PRIORITY)
  let fcm_payload :=
    if p.delay_while_idle then
      dictSet fcm_payload "delay_while_idle" (PyVal.bool p.delay_while_idle)
    else fcm_payload
  let fcm_payload :=
    if p.collapse_key ≠ "" then
      dictSet fcm_payload "collapse_key" (PyVal.str p.collapse_key)
    else fcm_payload
  let fcm_payload ←
    if truthy p.time_to_live then
      if isInstInt p.time_to_live then
        pure (dictSet fcm_payload "time_to_live" p.time_to_live)
      else
        Except.error
          (FCMError.invalidData "Provided time_to_live is not an integer")
    else pure fcm_payload
  let fcm_payload :=
    if p.restricted_package_name ≠ "" then
      dictSet fcm_payload "restricted_package_name"
        (PyVal.str p.restricted_package_name)
    else fcm_payload
  let fcm_payload :=
    if p.dry_run then dictSet fcm_payload "dry_run" (PyVal.bool p.dry_run)
    else fcm_payload
  let fcm_payload ←
    if truthy p.data_message then
      if isInstDict p.data_message then
        pure (dictSet fcm_payload "data" p.data_message)
      else
        Except.error
          (FCMError.invalidData "Provided data_message is in the wrong format")
    else pure fcm_payload
  let fcm_payload :=
    if p.message_body ≠ "" then
      let notification : List (String × PyVal) :=
        [("body", PyVal.str p.message_body),
         ("title", p.message_title),
         ("icon", p.message_icon)]
      let notification :=
        if p.click_action ≠ "" then
          dictSet notification "click_action" (PyVal.str p.click_action)
        else notification
      let notification :=
        if truthy p.badge then dictSet notification "badge" p.badge
        else notification
      let notification :=
        if p.color ≠ "" then dictSet notification "color" (PyVal.str p.color)
        else notification
      let notification :=
        if p.tag ≠ "" then dictSet notification "tag" (PyVal.str p.tag)
        else notification
      let notification :=
        if p.body_loc_key ≠ "" then
          dictSet notification "body_loc_key" (PyVal.str p.body_loc_key)
        else notification
      let notification :=
        if truthy p.body_loc_args then
          dictSet notification "body_loc_args" p.body_loc_args
        else notification
      let notification :=
        if p.title_loc_key ≠ "" then
          dictSet notification "title_loc_key" (PyVal.str p.title_loc_key)
        else notification
      let notification :=
        if truthy p.title_loc_args then
          dictSet notification "title_loc_args" p.title_loc_args
        else notification
      let notification :=
        if p.sound ≠ "" then dictSet notification "sound" (PyVal.str p.sound)
        else notification
      dictSet fcm_payload "notification" (PyVal.dict notification)
    else
      dictSet fcm_payload "content_available" (PyVal.bool true)
  let fcm_payload :=
    p.extra_kwargs.foldl (fun d kv => dictSet d kv.1 kv.2) fcm_payload
  pure fcm_payload

/-- The value under key `k` when `parse_payload`-style code succeeded with
dictionary `d`; `Option.none` both when an error was raised and when the
key is absent. -/
def okGet (r : Except FCMError (List (String × PyVal))) (k : String) :
    Option PyVal :=
  match r with
  | Except.ok d => dictGet? d k
  | Except.error _ => Option.none

/-- Whether `parse_payload`-style code raised an error. -/
def isError (r : Except FCMError (List (String × PyVal))) : Bool :=
  match r with
  | Except.ok _ => false
  | Except.error _ => true

/-- The parts of an HTTP response object that `send_request` and
`parse_response` inspect: the status code, the `content-length` header
parsed as an integer (`Option.none` when the header is absent), the JSON
body (`response.json()`) and the raw body text (`response.text`). -/
structure HttpResponse where
  status_code : Nat
  content_length : Option Int := Option.none
  body : PyVal := PyVal.dict []
  text : String := ""

/-- `BaseAPI.parse_response`: on a declared `content-length <= 0` return
the empty dict without touching the JSON body; otherwise read the six
fields with their defaults (`message_id` is read and then discarded: the
returned dict holds exactly the other five). -/
def parse_response (response : HttpResponse) : List (String × PyVal) :=
  if (match response.content_length with
      | some n => decide (n ≤ 0)
      | Option.none => false) then
    []
  else
    let parsed_response := response.body
    let multicast_id := pyGet parsed_response "multicast_id" PyVal.none
    let success := pyGet parsed_response "success" (PyVal.int 0)
    let failure := pyGet parsed_response "failure" (PyVal.int 0)
    let canonical_ids := pyGet parsed_response "canonical_ids" (PyVal.int 0)
    let results := pyGet parsed_response "results" (PyVal.list [])
    let _message_id := pyGet parsed_response "message_id" PyVal.none
    [("multicast_id", multicast_id),
     ("success", success),
     ("failure", failure),
     ("canonical_ids", canonical_ids),
     ("results", results)]

/-- The outcome of processing one HTTP response inside `send_request`:
either the parsed result is returned or a classified error is raised. -/
inductive SendOutcome where
  | ok (result : List (String × PyVal))
  | err (e : FCMError)

/-- The status-code dispatch in the body of `BaseAPI.send_request`, applied
to the response of one POST: 200 returns the parsed response, 401 raises
`AuthenticationError`, 400 raises `InternalPackageError` carrying the raw
response text, anything else raises `FCMServerError`. -/
def classify_response (response : HttpResponse) : SendOutcome :=
  if response.status_code = 200 then
    SendOutcome.ok (parse_response response)
  else if response.status_code = 401 then
    SendOutcome.err (FCMError.authentication
      "There was an error authenticating the sender account")
  else if response.status_code = 400 then
    SendOutcome.err (FCMError.internalPackage response.text)
  else
    SendOutcome.err (FCMError.server "FCM server is temporarily unavailable")

/-- `BaseAPI.send_request`, with the network abstracted: `responses` lists
the response obtained for each payload in order (when a proxy is
configured the source POSTs twice and `response` is the proxied reply;
either way one response per payload reaches the dispatch).  Every branch
of the loop body returns or raises, so the loop always ends on the first
payload; an empty payload list falls off the loop and returns `None`. -/
def send_request (responses : List HttpResponse) : Option SendOutcome :=
  match responses with
  | [] => Option.none
  | r :: _ => some (classify_response r)

/-! Helper lemmas about the chunker. -/

/-- Unfolding lemma: the empty recipient list yields no chunk
(`range(0, 0, 1000)` is empty). -/
theorem chunks_nil : registration_id_chunks [] = [] := by
  rw [registration_id_chunks]

/-- Unfolding lemma: a non-empty list yields its first 1000 ids as the
first chunk followed by the chunks of the remainder. -/
theorem chunks_cons (x : String) (rest : List String) :
    registration_id_chunks (x :: rest) =
      (x :: rest).take FCM_MAX_RECIPIENTS ::
        registration_id_chunks ((x :: rest).drop FCM_MAX_RECIPIENTS) := by
  rw [registration_id_chunks]

/-- Concatenating the chunks restores the original recipient list. -/
theorem chunks_flatten (l : List String) :
    (registration_id_chunks l).flatten = l := by
  induction l using registration_id_chunks.induct with
  | case1 => simp [chunks_nil]
  | case2 x rest ih =>
    rw [chunks_cons, List.flatten_cons, ih, List.take_append_drop]

/-- The number of chunks is `⌈n / 1000⌉` for a list of length `n`
(so `0` for the empty list). -/
theorem chunks_count (l : List String) :
    (registration_id_chunks l).length =
      (l.length + (FCM_MAX_RECIPIENTS - 1)) / FCM_MAX_RECIPIENTS := by
  induction l using registration_id_chunks.induct with
  | case1 => simp [chunks_nil, FCM_MAX_RECIPIENTS]
  | case2 x rest ih =>
    rw [chunks_cons]
    simp only [List.length_cons, ih]
    simp only [List.length_drop, List.length_cons, FCM_MAX_RECIPIENTS]
    omega

/-- Every chunk holds at most 1000 ids. -/
theorem chunks_bounded (l : List String) :
    ∀ c ∈ registration_id_chunks l, c.length ≤ FCM_MAX_RECIPIENTS := by
  induction l using registration_id_chunks.induct with
  | case1 => simp [chunks_nil]
  | case2 x rest ih =>
    rw [chunks_cons]
    intro c hc
    rcases List.mem_cons.mp hc with h | h
    · subst h
      simp [List.length_take]
    · exact ih c h

/-! Claim theorems. -/

/-- Claim C1, counterexample: with exactly one registration id `"regid1"`
and topic name `"news"` both given, the scalar target field `to` of the
built payload holds `"/topics/news"`, not the registration id — the topic
branch overwrites the single-recipient addressing. -/
theorem parse_payload_single_id_topic_cex :
    okGet (parse_payload { registration_ids := ["regid1"], topic_name := "news" })
        "to" = some (PyVal.str "/topics/news") ∧
      ("/topics/news" : String) ≠ "regid1" :=
  ⟨rfl, by decide⟩

/-- Claim C1, amended: the multi-recipient list field `registration_ids`
is emitted unchanged whatever topic/condition are given, and with exactly
one registration id and a condition the scalar `to` field keeps the id;
but with exactly one registration id and a topic name (and no condition)
the topic overwrites `to` with `/topics/<name>`. -/
theorem parse_payload_registration_addressing (ids : List String)
    (topic cond : String) :
    (ids.length > 1 →
      okGet (parse_payload { registration_ids := ids
                             topic_name := topic
                             condition := cond }) "registration_ids"
        = some (PyVal.list (ids.map PyVal.str))) ∧
    (ids.length = 1 → cond ≠ "" →
      okGet (parse_payload { registration_ids := ids
                             topic_name := topic
                             condition := cond }) "to"
        = some (PyVal.str (ids.headD ""))) ∧
    (ids.length = 1 → cond = "" → topic ≠ "" →
      okGet (parse_payload { registration_ids := ids
                             topic_name := topic
                             condition := cond }) "to"
        = some (PyVal.str ("/topics/" ++ topic))) := by
  refine ⟨?_, ?_, ?_⟩
  · intro h
    rcases ids with _ | ⟨a, _ | ⟨b, t⟩⟩
    · simp at h
    · simp at h
    · by_cases hc : cond = "" <;> by_cases ht : topic = "" <;>
        simp [parse_payload, okGet, dictSet, dictGet?, truthy, hc, ht,
          pure, Except.pure, bind, Except.bind]
  · intro h hc
    rcases ids with _ | ⟨a, _ | ⟨b, t⟩⟩
    · simp at h
    · simp [parse_payload, okGet, dictSet, dictGet?, truthy, hc,
        pure, Except.pure, bind, Except.bind]
    · simp at h
  · intro h hc ht
    rcases ids with _ | ⟨a, _ | ⟨b, t⟩⟩
    · simp at h
    · simp [parse_payload, okGet, dictSet, dictGet?, truthy, hc, ht,
        pure, Except.pure, bind, Except.bind]
    · simp at h

/-- Claim C1, witness: the amended statement applied to the concrete
inputs of the claim (two ids with a topic; one id with a condition; one id
with a topic). -/
theorem parse_payload_registration_addressing_witness :
    okGet (parse_payload { registration_ids := ["r1", "r2"]
                           topic_name := "news" }) "registration_ids"
      = some (PyVal.list [PyVal.str "r1", PyVal.str "r2"]) ∧
    okGet (parse_payload { registration_ids := ["r1"]
                           topic_name := "news"
                           condition := "ca" }) "to" = some (PyVal.str "r1") ∧
    okGet (parse_payload { registration_ids := ["r1"]
                           topic_name := "news" }) "to"
      = some (PyVal.str "/topics/news") :=
  ⟨(parse_payload_registration_addressing ["r1", "r2"] "news" "").1
      (by decide),
    (parse_payload_registration_addressing ["r1"] "news" "ca").2.1
      (by decide) (by decide),
    (parse_payload_registration_addressing ["r1"] "news" "").2.2
      (by decide) (by decide) (by decide)⟩

/-- Claim C2, counterexample: the empty recipient list has length ≤ 1000
yet produces zero chunks, not exactly one. -/
theorem registration_id_chunks_empty_cex :
    ([] : List String).length ≤ FCM_MAX_RECIPIENTS ∧
      (registration_id_chunks ([] : List String)).length ≠ 1 := by
  rw [chunks_nil]
  exact ⟨by decide, by decide⟩

/-- Claim C2, amended: a recipient list of length `n` with `1 ≤ n ≤ 1000`
yields exactly one chunk; in general the number of chunks is `⌈n/1000⌉`
(hence zero chunks for the empty list and `⌈n/1000⌉` chunks for
`n > 1000`), every chunk holds at most 1000 ids, and the concatenation of
the chunks is the original list. -/
theorem registration_id_chunks_spec (l : List String) :
    (1 ≤ l.length → l.length ≤ FCM_MAX_RECIPIENTS →
      (registration_id_chunks l).length = 1) ∧
    (registration_id_chunks l).length =
      (l.length + (FCM_MAX_RECIPIENTS - 1)) / FCM_MAX_RECIPIENTS ∧
    (∀ c ∈ registration_id_chunks l, c.length ≤ FCM_MAX_RECIPIENTS) ∧
    (registration_id_chunks l).flatten = l := by
  refine ⟨?_, chunks_count l, chunks_bounded l, chunks_flatten l⟩
  intro h1 h2
  rw [chunks_count l]
  simp only [FCM_MAX_RECIPIENTS] at h2 ⊢
  omega

/-- Claim C2, witness: one chunk for a one-element list, two chunks for a
1001-element list. -/
theorem registration_id_chunks_spec_witness :
    (registration_id_chunks ["a"]).length = 1 ∧
    (registration_id_chunks (List.replicate 1001 "x")).length = 2 := by
  constructor
  · exact (registration_id_chunks_spec ["a"]).1 (by decide) (by decide)
  · have h := (registration_id_chunks_spec (List.replicate 1001 "x")).2.1
    rw [List.length_replicate] at h
    simp only [FCM_MAX_RECIPIENTS] at h
    norm_num at h
    exact h

/-- Claim C3, counterexample: `time_to_live` given as the empty string is
present (not `None`) and is not an integer, yet no error is raised (the
truthiness guard skips falsy values); and `time_to_live = 0` is an integer
yet the payload does not contain the `time_to_live` key. -/
theorem parse_payload_time_to_live_cex :
    isError (parse_payload { time_to_live := PyVal.str "" }) = false ∧
    okGet (parse_payload { time_to_live := PyVal.int 0 }) "time_to_live"
      = Option.none :=
  ⟨rfl, rfl⟩

/-- Claim C3, amended: when `time_to_live` is truthy (non-`None`, non-zero,
non-empty), a non-integer raises `InvalidDataError` and an integer is
emitted under the `time_to_live` key; falsy values (`None`, `0`, `""`) are
silently omitted and raise nothing. -/
theorem parse_payload_time_to_live_spec (ttl : PyVal) :
    (truthy ttl = true → isInstInt ttl = false →
      parse_payload { time_to_live := ttl }
        = Except.error
            (FCMError.invalidData "Provided time_to_live is not an integer")) ∧
    (truthy ttl = true → isInstInt ttl = true →
      okGet (parse_payload { time_to_live := ttl }) "time_to_live"
        = some ttl) ∧
    (truthy ttl = false →
      isError (parse_payload { time_to_live := ttl }) = false ∧
      okGet (parse_payload { time_to_live := ttl }) "time_to_live"
        = Option.none) := by
  refine ⟨?_, ?_, ?_⟩
  · intro h1 h2
    simp +decide [parse_payload, okGet, dictSet, dictGet?, h1, h2,
      pure, Except.pure, bind, Except.bind]
  · intro h1 h2
    simp +decide [parse_payload, okGet, dictSet, dictGet?, h1, h2,
      pure, Except.pure, bind, Except.bind]
  · intro h1
    constructor <;>
      simp +decide [parse_payload, okGet, isError, dictSet, dictGet?, h1,
        pure, Except.pure, bind, Except.bind]

/-- Claim C3, witness: the amended statement applied to the string
`"60"` (truthy non-integer: error), the integer `60` (emitted), and
`None` (skipped). -/
theorem parse_payload_time_to_live_spec_witness :
    parse_payload { time_to_live := PyVal.str "60" }
      = Except.error
          (FCMError.invalidData "Provided time_to_live is not an integer") ∧
    okGet (parse_payload { time_to_live := PyVal.int 60 }) "time_to_live"
      = some (PyVal.int 60) ∧
    isError (parse_payload { time_to_live := PyVal.none }) = false :=
  ⟨(parse_payload_time_to_live_spec (PyVal.str "60")).1 rfl rfl,
    (parse_payload_time_to_live_spec (PyVal.int 60)).2.1 rfl rfl,
    ((parse_payload_time_to_live_spec PyVal.none).2.2 rfl).1⟩

/-- Claim C4, counterexample: `data_message` given as the empty list is
present (not `None`) and is not a mapping, yet no error is raised (the
truthiness guard skips falsy values); and the empty mapping `{}` is a
mapping yet the payload does not contain the `data` key. -/
theorem parse_payload_data_message_cex :
    isError (parse_payload { data_message := PyVal.list [] }) = false ∧
    okGet (parse_payload { data_message := PyVal.dict [] }) "data"
      = Option.none :=
  ⟨rfl, rfl⟩

/-- Claim C4, amended: when `data_message` is truthy (non-`None`,
non-empty), a non-mapping raises `InvalidDataError` and a mapping is
emitted under the `data` key; falsy values (`None`, `[]`, `{}`) are
silently omitted and raise nothing. -/
theorem parse_payload_data_message_spec (dm : PyVal) :
    (truthy dm = true → isInstDict dm = false →
      parse_payload { data_message := dm }
        = Except.error
            (FCMError.invalidData "Provided data_message is in the wrong format")) ∧
    (truthy dm = true → isInstDict dm = true →
      okGet (parse_payload { data_message := dm }) "data" = some dm) ∧
    (truthy dm = false →
      isError (parse_payload { data_message := dm }) = false ∧
      okGet (parse_payload { data_message := dm }) "data" = Option.none) := by
  refine ⟨?_, ?_, ?_⟩
  · intro h1 h2
    simp +decide [parse_payload, okGet, dictSet, dictGet?, h1, h2,
      pure, Except.pure, bind, Except.bind]
  · intro h1 h2
    simp +decide [parse_payload, okGet, dictSet, dictGet?, h1, h2,
      pure, Except.pure, bind, Except.bind]
  · intro h1
    constructor <;>
      simp +decide [parse_payload, okGet, isError, dictSet, dictGet?, h1,
        pure, Except.pure, bind, Except.bind]

/-- Claim C4, witness: the amended statement applied to a non-empty list
(error), a non-empty mapping (emitted under `data`), and `None`
(skipped). -/
theorem parse_payload_data_message_spec_witness :
    parse_payload { data_message := PyVal.list [PyVal.str "x"] }
      = Except.error
          (FCMError.invalidData "Provided data_message is in the wrong format") ∧
    okGet (parse_payload { data_message := PyVal.dict [("k", PyVal.str "v")] })
        "data" = some (PyVal.dict [("k", PyVal.str "v")]) ∧
    isError (parse_payload { data_message := PyVal.none }) = false :=
  ⟨(parse_payload_data_message_spec (PyVal.list [PyVal.str "x"])).1 rfl rfl,
    (parse_payload_data_message_spec
        (PyVal.dict [("k", PyVal.str "v")])).2.1 rfl rfl,
    ((parse_payload_data_message_spec PyVal.none).2.2 rfl).1⟩

/-- Claim C6: when both a condition expression and a topic name are given,
the condition is emitted under the `condition` key and the whole payload is
the same as if no topic had been given (the topic is not emitted); when
only a topic name is given, the `to` field equals `/topics/<name>`. -/
theorem parse_payload_condition_topic_precedence (ids : List String)
    (topic cond : String) :
    (cond ≠ "" →
      okGet (parse_payload { registration_ids := ids
                             topic_name := topic
                             condition := cond }) "condition"
        = some (PyVal.str cond) ∧
      parse_payload { registration_ids := ids
                      topic_name := topic
                      condition := cond }
        = parse_payload { registration_ids := ids
                          topic_name := ""
                          condition := cond }) ∧
    (cond = "" → topic ≠ "" →
      okGet (parse_payload { registration_ids := ids
                             topic_name := topic
                             condition := cond }) "to"
        = some (PyVal.str ("/topics/" ++ topic))) := by
  constructor
  · intro hc
    constructor <;>
      rcases ids with _ | ⟨a, _ | ⟨b, t⟩⟩ <;>
        simp [parse_payload, okGet, dictSet, dictGet?, truthy, hc,
          pure, Except.pure, bind, Except.bind]
  · intro hc ht
    rcases ids with _ | ⟨a, _ | ⟨b, t⟩⟩ <;>
      simp [parse_payload, okGet, dictSet, dictGet?, truthy, hc, ht,
        pure, Except.pure, bind, Except.bind]

/-- Claim C6, witness: with condition `"c"` and topic `"t"` both given,
the condition is emitted; with only topic `"t"`, `to = "/topics/t"`. -/
theorem parse_payload_condition_topic_precedence_witness :
    okGet (parse_payload { topic_name := "t", condition := "c" }) "condition"
      = some (PyVal.str "c") ∧
    okGet (parse_payload { topic_name := "t" }) "to"
      = some (PyVal.str "/topics/t") :=
  ⟨((parse_payload_condition_topic_precedence [] "t" "c").1 (by decide)).1,
    (parse_payload_condition_topic_precedence [] "t" "").2 rfl (by decide)⟩

/-- Claim C7: with no message body given the payload carries
`content_available = true` and no `notification` key; in particular with
`data_message` a truthy mapping, the payload additionally carries it under
the `data` key. -/
theorem parse_payload_content_available (dm : PyVal) :
    (truthy dm = true → isInstDict dm = true →
      okGet (parse_payload { data_message := dm }) "content_available"
        = some (PyVal.bool true) ∧
      okGet (parse_payload { data_message := dm }) "notification"
        = Option.none ∧
      okGet (parse_payload { data_message := dm }) "data" = some dm) ∧
    (okGet (parse_payload {}) "content_available" = some (PyVal.bool true) ∧
      okGet (parse_payload {}) "notification" = Option.none) := by
  constructor
  · intro h1 h2
    refine ⟨?_, ?_, ?_⟩ <;>
      simp +decide [parse_payload, okGet, dictSet, dictGet?, h1, h2,
        pure, Except.pure, bind, Except.bind]
  · exact ⟨rfl, rfl⟩

/-- Claim C7, witness: the statement applied to the mapping
`{"k": "v"}` of the claim. -/
theorem parse_payload_content_available_witness :
    okGet (parse_payload { data_message := PyVal.dict [("k", PyVal.str "v")] })
        "content_available" = some (PyVal.bool true) ∧
    okGet (parse_payload { data_message := PyVal.dict [("k", PyVal.str "v")] })
        "notification" = Option.none ∧
    okGet (parse_payload { data_message := PyVal.dict [("k", PyVal.str "v")] })
        "data" = some (PyVal.dict [("k", PyVal.str "v")]) :=
  (parse_payload_content_available (PyVal.dict [("k", PyVal.str "v")])).1
    rfl rfl

/-- Claim C8: with a message body given, the nested notification object
contains a `sound` key exactly when `sound` is explicitly non-empty; with
`sound = None` (falsy) the notification object is just body/title/icon. -/
theorem parse_payload_sound_omitted (body s : String) (h : body ≠ "") :
    okGet (parse_payload { message_body := body, sound := s }) "notification"
      = some (PyVal.dict
          (if s = "" then
            [("body", PyVal.str body), ("title", PyVal.none),
              ("icon", PyVal.none)]
          else
            [("body", PyVal.str body), ("title", PyVal.none),
              ("icon", PyVal.none), ("sound", PyVal.str s)])) := by
  by_cases hs : s = "" <;>
    simp [parse_payload, okGet, dictSet, dictGet?, truthy, h, hs,
      pure, Except.pure, bind, Except.bind]

/-- Claim C8, witness: with `message_body = "hi"` and no sound, the
notification object holds exactly body/title/icon — no `sound` key. -/
theorem parse_payload_sound_omitted_witness :
    okGet (parse_payload { message_body := "hi" }) "notification"
      = some (PyVal.dict
          [("body", PyVal.str "hi"), ("title", PyVal.none),
            ("icon", PyVal.none)]) := by
  have h := parse_payload_sound_omitted "hi" "" (by decide)
  simpa using h

/-- Claim C5: the status-code dispatch of `send_request` sends each
response to exactly one of four outcomes — 200 returns the parsed result,
401 raises `AuthenticationError`, 400 raises `InternalPackageError`
carrying the raw response text, and every other status raises the generic
server-unavailable `FCMServerError`; the four status categories are
mutually exclusive and exhaustive, and `classify_response` is a function,
so exactly one outcome occurs per response.  The last conjunct ties the
dispatch to the loop of `send_request`. -/
theorem send_request_status_classification (r : HttpResponse) :
    (r.status_code = 200 →
      classify_response r = SendOutcome.ok (parse_response r)) ∧
    (r.status_code = 401 →
      classify_response r = SendOutcome.err (FCMError.authentication
        "There was an error authenticating the sender account")) ∧
    (r.status_code = 400 →
      classify_response r = SendOutcome.err
        (FCMError.internalPackage r.text)) ∧
    (r.status_code ≠ 200 → r.status_code ≠ 401 → r.status_code ≠ 400 →
      classify_response r = SendOutcome.err (FCMError.server
        "FCM server is temporarily unavailable")) ∧
    (∀ rest : List HttpResponse,
      send_request (r :: rest) = some (classify_response r)) := by
  refine ⟨?_, ?_, ?_, ?_, fun rest => rfl⟩ <;>
    intro h
  · simp [classify_response, h]
  · simp [classify_response, h]
  · simp [classify_response, h]
  · intro h2 h3
    simp [classify_response, h, h2, h3]

/-- Claim C5, witness: the classification applied to responses with the
four status codes 200, 401, 400 and 500. -/
theorem send_request_status_classification_witness :
    classify_response { status_code := 200 }
      = SendOutcome.ok (parse_response { status_code := 200 }) ∧
    classify_response { status_code := 401 }
      = SendOutcome.err (FCMError.authentication
          "There was an error authenticating the sender account") ∧
    classify_response { status_code := 400, text := "bad request body" }
      = SendOutcome.err (FCMError.internalPackage "bad request body") ∧
    classify_response { status_code := 500 }
      = SendOutcome.err (FCMError.server
          "FCM server is temporarily unavailable") :=
  ⟨(send_request_status_classification { status_code := 200 }).1 rfl,
    (send_request_status_classification { status_code := 401 }).2.1 rfl,
    (send_request_status_classification
        { status_code := 400, text := "bad request body" }).2.2.1 rfl,
    (send_request_status_classification { status_code := 500 }).2.2.2.1
      (by decide) (by decide) (by decide)⟩

/-- Claim C9: a 200 response declaring `content-length ≤ 0` parses to the
empty result object without the JSON body being consulted; otherwise the
parsed result holds, under each of the five keys, the corresponding JSON
field when present and the documented default (`None`, `0`, `0`, `0`,
`[]`) when missing. -/
theorem parse_response_spec (r : HttpResponse) (body : List (String × PyVal))
    (_hst : r.status_code = 200) (hb : r.body = PyVal.dict body) :
    (∀ n : Int, r.content_length = some n → n ≤ 0 → parse_response r = []) ∧
    ((∀ n : Int, r.content_length = some n → 0 < n) →
      dictGet? (parse_response r) "multicast_id"
        = some ((dictGet? body "multicast_id").getD PyVal.none) ∧
      dictGet? (parse_response r) "success"
        = some ((dictGet? body "success").getD (PyVal.int 0)) ∧
      dictGet? (parse_response r) "failure"
        = some ((dictGet? body "failure").getD (PyVal.int 0)) ∧
      dictGet? (parse_response r) "canonical_ids"
        = some ((dictGet? body "canonical_ids").getD (PyVal.int 0)) ∧
      dictGet? (parse_response r) "results"
        = some ((dictGet? body "results").getD (PyVal.list []))) := by
  constructor
  · intro n hn hle
    simp [parse_response, hn, hle]
  · intro hpos
    rcases hcl : r.content_length with _ | n
    · refine ⟨?_, ?_, ?_, ?_, ?_⟩ <;>
        simp +decide [parse_response, hcl, hb, pyGet, dictGet?]
    · have hn : ¬ (n ≤ 0) := by
        have := hpos n hcl
        omega
      refine ⟨?_, ?_, ?_, ?_, ?_⟩ <;>
        simp +decide [parse_response, hcl, hb, hn, pyGet, dictGet?]

/-- Claim C9, witness: the statement applied to a response with
`content-length: 0` (empty result) and to a response carrying
`{"success": 1}` (field extracted, the other four defaulted). -/
theorem parse_response_spec_witness :
    parse_response { status_code := 200
                     content_length := some 0
                     body := PyVal.dict [("success", PyVal.int 1)] } = [] ∧
    dictGet? (parse_response { status_code := 200
                               content_length := some 42
                               body := PyVal.dict [("success", PyVal.int 1)] })
        "success" = some (PyVal.int 1) ∧
    dictGet? (parse_response { status_code := 200
                               content_length := some 42
                               body := PyVal.dict [("success", PyVal.int 1)] })
        "multicast_id" = some PyVal.none := by
  refine ⟨?_, ?_, ?_⟩
  · exact (parse_response_spec { status_code := 200
                                 content_length := some 0
                                 body := PyVal.dict [("success", PyVal.int 1)] }
      [("success", PyVal.int 1)] rfl rfl).1 0 rfl (by decide)
  · have h := (parse_response_spec { status_code := 200
                                     content_length := some 42
                                     body := PyVal.dict
                                       [("success", PyVal.int 1)] }
      [("success", PyVal.int 1)] rfl rfl).2
      (fun n hn => by injection hn with h2; omega)
    simpa using h.2.1
  · have h := (parse_response_spec { status_code := 200
                                     content_length := some 42
                                     body := PyVal.dict
                                       [("success", PyVal.int 1)] }
      [("success", PyVal.int 1)] rfl rfl).2
      (fun n hn => by injection hn with h2; omega)
    simpa using h.1

/-- Claim C10: for a non-empty 200 JSON body, the dictionary returned by
`parse_response` has exactly the five keys `multicast_id`, `success`,
`failure`, `canonical_ids`, `results` in this order, and never a
`message_id` key — even when the JSON body carries a `message_id` field
(the source reads it into a local and discards it). -/
theorem parse_response_keys (r : HttpResponse) (body : List (String × PyVal))
    (hb : r.body = PyVal.dict body)
    (hcl : ∀ n : Int, r.content_length = some n → 0 < n) :
    (parse_response r).map Prod.fst
      = ["multicast_id", "success", "failure", "canonical_ids", "results"] ∧
    dictGet? (parse_response r) "message_id" = Option.none := by
  rcases hc : r.content_length with _ | n
  · constructor <;> simp +decide [parse_response, hc, hb, dictGet?]
  · have hn : ¬ (n ≤ 0) := by
      have := hcl n hc
      omega
    constructor <;> simp +decide [parse_response, hc, hb, hn, dictGet?]

/-- Claim C10, witness: the statement applied to a body that does carry a
`message_id` field: the parsed result still has exactly the five keys and
no `message_id`. -/
theorem parse_response_keys_witness :
    (parse_response { status_code := 200
                      body := PyVal.dict [("message_id", PyVal.int 99)] }).map
        Prod.fst
      = ["multicast_id", "success", "failure", "canonical_ids", "results"] ∧
    dictGet? (parse_response { status_code := 200
                               body := PyVal.dict
                                 [("message_id", PyVal.int 99)] })
        "message_id" = Option.none :=
  parse_response_keys { status_code := 200
                        body := PyVal.dict [("message_id", PyVal.int 99)] }
    [("message_id", PyVal.int 99)] rfl
    (fun _ hn => Option.noConfusion hn)

end MobileNotifications
